import Mathlib

/-
Verification of the Beatoven.ai client library (task lifecycle orchestration).

The embedding models the client's operations (`compose_track`,
`get_track_status`, `handle_track_file`, `watch_task_status`,
`generate_music` from beatoven_ai/client.py) as pure functions over
explicit representations of the HTTP responses they would receive and the
filesystem effects they would perform.  Python exceptions become explicit
outcome constructors; Python truthiness checks (`x or default`,
`if not filename`) are modelled exactly.
-/

namespace Beatoven

/-- The single domain error type (`BeatovenAIError` in client.py), carrying
its human-readable message. -/
structure BeatovenAIError where
  message : String
deriving Repr, DecidableEq

/-- Outcome of running a piece of the client's code: a normal value, a
raised `BeatovenAIError`, or a raised non-domain Python exception carrying
its description. -/
inductive Outcome (α : Type) where
  | ok : α → Outcome α
  | err : BeatovenAIError → Outcome α
  | exc : String → Outcome α
deriving Repr, DecidableEq

/-- Modelled from the spec: models.py is absent from the sources; §3 gives
TextPrompt one field, a text description. -/
structure TextPrompt where
  text : String
deriving Repr, DecidableEq

/-- Modelled from the spec: models.py is absent from the sources; §3 gives
CompositionRequest the fields prompt, duration (integer seconds) and
format. -/
structure TrackRequest where
  prompt : TextPrompt
  duration : Int
  format : String
deriving Repr, DecidableEq

/-- The three-value audio format enum of §3. -/
def allowedFormats : List String := ["mp3", "wav", "ogg"]

/-- Modelled from the spec: models.py is absent from the sources;
construction of a CompositionRequest validates duration ∈ [30, 600] and
format ∈ the enum, with defaults duration=180 and format="mp3" when unset
(§3, §4.1; confirmed by tests/test_models.py). Returns `none` for a
validation failure. -/
def TrackRequest.mk? (prompt : TextPrompt) (duration? : Option Int)
    (format? : Option String) : Option TrackRequest :=
  let d := duration?.getD 180
  let f := format?.getD "mp3"
  if 30 ≤ d ∧ d ≤ 600 ∧ f ∈ allowedFormats then some ⟨prompt, d, f⟩ else none

/-- Modelled from the spec: models.py is absent from the sources; §3 names
composing, completed and failed as the server's known status values. -/
def knownStatuses : List String := ["composing", "completed", "failed"]

/-- Task status as produced by a poll (`TrackStatus` in models.py): a
status string and an optional string-keyed mapping.  The mapping is
modelled as an association list. -/
structure TrackStatus where
  status : String
  meta : Option (List (String × String))
deriving Repr, DecidableEq

/-- Modelled from the spec: models.py is absent from the sources;
constructing a TrackStatus validates the status value against the known
set (§3; tests/test_models.py has TrackStatus(status="invalid") raise
ValidationError). -/
def TrackStatus.mk? (status : String) (meta : Option (List (String × String))) :
    Option TrackStatus :=
  if status ∈ knownStatuses then some ⟨status, meta⟩ else none

/-- Modelled from the spec: models.py is absent from the sources; the
submit response (`TaskResponse`) holds the task identifier. -/
structure TaskResponse where
  task_id : String
deriving Repr, DecidableEq

/-- Python truthiness of an optional string: `None` and `""` are falsy. -/
def pyFalsyStr : Option String → Bool
  | none => true
  | some s => s = ""

/-- What the POST to /tracks/compose yields: a response (HTTP status code,
optional `task_id` body field, serialized raw body), or one of the
exception classes caught in compose_track. -/
inductive ComposeHttp where
  | resp : Nat → Option String → String → ComposeHttp
  | connectionError : String → ComposeHttp
  | clientError : String → ComposeHttp
  | unexpectedError : String → ComposeHttp
deriving Repr, DecidableEq

/-- client.py `compose_track` (lines 46-98): raises the domain error when
the status is not 200 or `response_data.get("task_id")` is falsy, else
returns the TaskResponse; connection, client and unexpected exceptions are
each re-wrapped into the domain error. -/
def compose_track : ComposeHttp → Outcome TaskResponse
  | .resp status taskId? rawBody =>
      if status ≠ 200 ∨ pyFalsyStr taskId? then
        .err ⟨"Composition failed: " ++ rawBody⟩
      else
        .ok ⟨taskId?.getD ""⟩
  | .connectionError m => .err ⟨"Could not connect to Beatoven.ai: " ++ m⟩
  | .clientError m => .err ⟨"HTTP error: " ++ m⟩
  | .unexpectedError m => .err ⟨"Unexpected error: " ++ m⟩

/-- What the GET to /tasks/:id yields: a response (HTTP status code, the
body's `status` field, the body's `meta` field, the body text), or one of
the exception classes caught in get_track_status. -/
inductive StatusHttp where
  | resp : Nat → String → Option (List (String × String)) → String → StatusHttp
  | connectionError : String → StatusHttp
  | clientError : String → StatusHttp
  | unexpectedError : String → StatusHttp
deriving Repr, DecidableEq

/-- Modelled from the spec: the text of the pydantic ValidationError raised
for an unrecognized status value (models.py is absent from the sources). -/
def statusValidationMsg (s : String) : String :=
  "validation error for TrackStatus status value " ++ s

/-- client.py `get_track_status` (lines 100-141): on 200 the JSON body is
parsed into TrackStatus (a validation failure is a non-domain exception
that falls into the generic handler and is re-wrapped); on non-200 the
domain error carries the response body text. -/
def get_track_status : StatusHttp → Outcome TrackStatus
  | .resp code st meta bodyText =>
      if code = 200 then
        match TrackStatus.mk? st meta with
        | some ts => .ok ts
        | none => .err ⟨"Unexpected error: " ++ statusValidationMsg st⟩
      else
        .err ⟨"Status check failed: " ++ bodyText⟩
  | .connectionError m => .err ⟨"Could not connect: " ++ m⟩
  | .clientError m => .err ⟨"HTTP error: " ++ m⟩
  | .unexpectedError m => .err ⟨"Unexpected error: " ++ m⟩

/-- What the unauthenticated GET of the track URL yields: a response
(HTTP status code, body bytes, body text), or one of the exception classes
caught in handle_track_file. -/
inductive DownloadHttp where
  | resp : Nat → List Nat → String → DownloadHttp
  | connectionError : String → DownloadHttp
  | clientError : String → DownloadHttp
  | unexpectedError : String → DownloadHttp
deriving Repr, DecidableEq

/-- The observable effect of `handle_track_file`: its outcome (returned
path or raised error), the file it wrote (path and bytes, `none` if no
file was written), and whether the destination directory was created
(ensured to exist). -/
structure DownloadEffect where
  result : Outcome String
  fileWritten : Option (String × List Nat)
  dirCreated : Bool
deriving Repr, DecidableEq

/-- client.py lines 168: `Path(output_path or self.settings.OUTPUT_DIR)` —
the output directory, with Python truthiness (`""` falls back too). -/
def resolveOutputDir (output_path? : Option String) (defaultDir : String) : String :=
  match output_path? with
  | none => defaultDir
  | some s => if s = "" then defaultDir else s

/-- Python's `str.endswith`: an exact suffix comparison, modelled over the
character lists of the two strings. -/
def strEndsWith (s suff : String) : Bool :=
  s.data.drop (s.data.length - suff.data.length) == suff.data

/-- client.py lines 171-177: if the filename is falsy (unset or empty) one
is synthesized from the event-loop monotonic time (modelled as the natural
number `loopTime`); then the format extension is appended unless the name
already ends with the literal string `.{format}`. -/
def resolveFilename (filename? : Option String) (format : String)
    (loopTime : Nat) : String :=
  let f :=
    match filename? with
    | none => "composed_track_" ++ toString loopTime
    | some s => if s = "" then "composed_track_" ++ toString loopTime else s
  if strEndsWith f ("." ++ format) then f else f ++ "." ++ format

/-- client.py `handle_track_file` (lines 143-206): creates the output
directory (with parents) before the GET; on 200 writes the full body to
the file and returns its path; on non-200 raises the domain error with the
body text and writes nothing; connection, client and unexpected exceptions
are each re-wrapped into the domain error. -/
def handle_track_file (output_path? : Option String) (defaultDir : String)
    (filename? : Option String) (format : String) (loopTime : Nat)
    (http : DownloadHttp) : DownloadEffect :=
  let output_dir := resolveOutputDir output_path? defaultDir
  let filename := resolveFilename filename? format loopTime
  let file_path := output_dir ++ "/" ++ filename
  match http with
  | .resp code body text =>
      if code = 200 then
        ⟨.ok file_path, some (file_path, body), true⟩
      else
        ⟨.err ⟨"Download failed: " ++ text⟩, none, true⟩
  | .connectionError m => ⟨.err ⟨"Could not download file: " ++ m⟩, none, true⟩
  | .clientError m => ⟨.err ⟨"HTTP error: " ++ m⟩, none, true⟩
  | .unexpectedError m => ⟨.err ⟨"Unexpected error: " ++ m⟩, none, true⟩

/-- Result of the poll loop on a finite sequence of polled statuses: the
returned terminal status, the raised "Task failed" domain error, or the
loop still waiting (every supplied status was "composing").  Each result
carries the list of sleep durations performed, one per looping
iteration. -/
inductive WatchResult where
  | returned : TrackStatus → List Nat → WatchResult
  | failedTask : BeatovenAIError → List Nat → WatchResult
  | stillPolling : List Nat → WatchResult
deriving Repr, DecidableEq

/-- client.py `watch_task_status` loop body (lines 231-242): while the
status is "composing" sleep for the polling interval and poll again; on
"failed" raise the domain error; on anything else return the status.
`sleeps` accumulates the sleep durations performed so far. -/
def watchLoop (interval : Nat) : List TrackStatus → List Nat → WatchResult
  | [], sleeps => .stillPolling sleeps
  | s :: rest, sleeps =>
      if s.status = "composing" then watchLoop interval rest (sleeps ++ [interval])
      else if s.status = "failed" then .failedTask ⟨"Task failed"⟩ sleeps
      else .returned s sleeps

/-- Python truthiness for an optional natural number: `None` and `0` are
falsy. -/
def pyOrNat (x? : Option Nat) (d : Nat) : Nat :=
  match x? with
  | none => d
  | some x => if x = 0 then d else x

/-- client.py `watch_task_status` (lines 208-242), over the sequence of
statuses successive `get_track_status` calls would return: resolves the
polling interval by truthiness (line 228) then runs the loop. -/
def watch_task_status (interval? : Option Nat) (defaultInterval : Nat)
    (statuses : List TrackStatus) : WatchResult :=
  watchLoop (pyOrNat interval? defaultInterval) statuses []

/-- Python truthiness for an optional integer: `None` and `0` are falsy. -/
def pyOrInt (x? : Option Int) (d : Int) : Int :=
  match x? with
  | none => d
  | some x => if x = 0 then d else x

/-- Python truthiness for an optional string default (client.py lines
269-270): `None` and `""` fall back to the default. -/
def pyOrStr (x? : Option String) (d : String) : String :=
  match x? with
  | none => d
  | some x => if x = "" then d else x

/-- client.py line 290: `final_status.meta and "track_url" in
final_status.meta` — Python truthiness of the mapping (an empty dict is
falsy) followed by key membership. -/
def metaTruthyHasTrackUrl (meta : Option (List (String × String))) : Bool :=
  match meta with
  | none => false
  | some m => !m.isEmpty && (m.lookup "track_url").isSome

/-- client.py line 291: `final_status.meta["track_url"]`. -/
def metaTrackUrl (meta : Option (List (String × String))) : String :=
  match meta with
  | none => ""
  | some m => ((m.lookup "track_url").getD "")

/-- The defaults generate_music reads from settings (config.py
DEFAULT_DURATION, DEFAULT_FORMAT). -/
structure GenSettings where
  DEFAULT_DURATION : Int
  DEFAULT_FORMAT : String
deriving Repr, DecidableEq

/-- Result of `generate_music`: its outcome and whether the download step
(`handle_track_file`) was invoked. -/
structure GenOutcome where
  result : Outcome String
  downloadCalled : Bool
deriving Repr, DecidableEq

/-- client.py lines 304-309, the top-level try/except of generate_music: a
BeatovenAIError passes through unchanged; any other exception is wrapped
once into the domain error. -/
def wrapTop : Outcome String → Outcome String
  | .ok p => .ok p
  | .err e => .err e
  | .exc m => .err ⟨"Music generation failed: " ++ m⟩

/-- client.py `generate_music` (lines 244-309).  Applies the settings
defaults by truthiness (lines 269-270), constructs the TrackRequest
(lines 272-276) — this happens before the try block, so a validation
failure escapes as a raw (non-domain) exception — then runs
submit → poll → download, where each sub-step's behavior is supplied as an
oracle giving the outcome that call would have.  Inside the try block, on
a terminal status the meta mapping must truthily contain "track_url"
(line 290) or the distinct "No track URL" domain error is raised; the
whole try body's outcome passes through `wrapTop`. -/
def generate_music (settings : GenSettings) (prompt : TextPrompt)
    (duration? : Option Int) (format? : Option String)
    (composeStep : TrackRequest → Outcome TaskResponse)
    (watchStep : String → Outcome TrackStatus)
    (downloadStep : String → Outcome String) : GenOutcome :=
  let duration := pyOrInt duration? settings.DEFAULT_DURATION
  let format := pyOrStr format? settings.DEFAULT_FORMAT
  match TrackRequest.mk? prompt (some duration) (some format) with
  | none => ⟨.exc "ValidationError", false⟩
  | some req =>
      match composeStep req with
      | .ok tr =>
          match watchStep tr.task_id with
          | .ok st =>
              if metaTruthyHasTrackUrl st.meta then
                ⟨wrapTop (downloadStep (metaTrackUrl st.meta)), true⟩
              else
                ⟨wrapTop (.err ⟨"No track URL in the completion response"⟩), false⟩
          | .err e => ⟨wrapTop (.err e), false⟩
          | .exc m => ⟨wrapTop (.exc m), false⟩
      | .err e => ⟨wrapTop (.err e), false⟩
      | .exc m => ⟨wrapTop (.exc m), false⟩

/-- C3: compose_track returns a TaskResponse whose task_id equals the
body's task_id exactly when the HTTP status is 200 and the body's task_id
is present and non-empty; otherwise it raises the domain error carrying
the raw response body. -/
theorem compose_track_submit_spec (status : Nat) (tid? : Option String) (raw : String) :
    ((∃ t, tid? = some t ∧
        compose_track (ComposeHttp.resp status tid? raw) = Outcome.ok ⟨t⟩)
      ↔ (status = 200 ∧ ∃ t, tid? = some t ∧ t ≠ "")) ∧
    (¬ (status = 200 ∧ ∃ t, tid? = some t ∧ t ≠ "") →
      compose_track (ComposeHttp.resp status tid? raw)
        = Outcome.err ⟨"Composition failed: " ++ raw⟩) := by
  have hkey : (status = 200 ∧ ∃ t, tid? = some t ∧ t ≠ "")
      ↔ ¬ (status ≠ 200 ∨ pyFalsyStr tid? = true) := by
    cases tid? <;> simp [pyFalsyStr]
  have heval : (status ≠ 200 ∨ pyFalsyStr tid? = true) →
      compose_track (ComposeHttp.resp status tid? raw)
        = Outcome.err ⟨"Composition failed: " ++ raw⟩ := by
    intro h
    simp only [compose_track]
    rw [if_pos h]
  constructor
  · constructor
    · rintro ⟨t, ht, hok⟩
      by_contra hneg
      have hd : status ≠ 200 ∨ pyFalsyStr tid? = true := by
        by_contra hd
        exact hneg (hkey.mpr hd)
      rw [heval hd] at hok
      exact absurd hok (by simp)
    · rintro ⟨h200, t, ht, hne⟩
      subst h200
      subst ht
      refine ⟨t, rfl, ?_⟩
      simp [compose_track, pyFalsyStr, hne]
  · intro hneg
    have hd : status ≠ 200 ∨ pyFalsyStr tid? = true := by
      by_contra hd
      exact hneg (hkey.mpr hd)
    exact heval hd

/-- Witness for C3 at a concrete input: a 404 response raises the domain
error with the raw body as context. -/
theorem compose_track_submit_spec_witness :
    compose_track (ComposeHttp.resp 404 (some "t1") "bad")
      = Outcome.err ⟨"Composition failed: bad"⟩ :=
  (compose_track_submit_spec 404 (some "t1") "bad").2
    (fun h => absurd h.1 (by decide))

/-- C5: constructing a TrackRequest succeeds and round-trips its inputs
for every duration in [30, 600] and format in the three-value enum, fails
validation for a duration outside the range or a format outside the enum,
and uses defaults duration=180, format="mp3" when unset. -/
theorem trackRequest_validation_spec (p : TextPrompt) :
    (∀ d f, 30 ≤ d → d ≤ 600 → f ∈ allowedFormats →
      TrackRequest.mk? p (some d) (some f) = some ⟨p, d, f⟩) ∧
    (∀ d f?, (d < 30 ∨ 600 < d) → TrackRequest.mk? p (some d) f? = none) ∧
    (∀ d? f, f ∉ allowedFormats → TrackRequest.mk? p d? (some f) = none) ∧
    TrackRequest.mk? p none none = some ⟨p, 180, "mp3"⟩ := by
  refine ⟨?_, ?_, ?_, ?_⟩
  · intro d f h1 h2 h3
    simp [TrackRequest.mk?, h1, h2, h3]
  · intro d f? h
    rcases h with h | h
    · simp [TrackRequest.mk?]
      intro h'
      omega
    · simp [TrackRequest.mk?]
      intro _ h'
      omega
  · intro d? f h
    simp [TrackRequest.mk?, h]
  · simp [TrackRequest.mk?, allowedFormats]

/-- Witness for C5 at a concrete input: duration 45 with format "wav"
round-trips. -/
theorem trackRequest_validation_spec_witness :
    TrackRequest.mk? ⟨"x"⟩ (some 45) (some "wav") = some ⟨⟨"x"⟩, 45, "wav"⟩ :=
  (trackRequest_validation_spec ⟨"x"⟩).1 45 "wav" (by decide) (by decide)
    (by simp [allowedFormats])

/-- C6: on a 200 response whose status value is outside the recognized
set, constructing the TrackStatus fails validation and get_track_status
surfaces that as the domain error (never an ok TrackStatus); on a non-200
response it raises the domain error carrying the response body text. -/
theorem get_track_status_validation_spec (code : Nat) (st : String)
    (meta : Option (List (String × String))) (bodyText : String) :
    (st ∉ knownStatuses →
      get_track_status (StatusHttp.resp 200 st meta bodyText)
        = Outcome.err ⟨"Unexpected error: " ++ statusValidationMsg st⟩ ∧
      ∀ ts, get_track_status (StatusHttp.resp 200 st meta bodyText)
        ≠ Outcome.ok ts) ∧
    (code ≠ 200 →
      get_track_status (StatusHttp.resp code st meta bodyText)
        = Outcome.err ⟨"Status check failed: " ++ bodyText⟩) := by
  constructor
  · intro h
    have hmk : TrackStatus.mk? st meta = none := by
      simp [TrackStatus.mk?, h]
    constructor
    · simp [get_track_status, hmk]
    · intro ts
      simp [get_track_status, hmk]
  · intro h
    simp [get_track_status, h]

/-- Witness for C6 at a concrete input: status value "invalid" on a 200
response yields the domain error, and a 404 yields the status-check
domain error. -/
theorem get_track_status_validation_spec_witness :
    get_track_status (StatusHttp.resp 200 "invalid" none "b")
      = Outcome.err ⟨"Unexpected error: " ++ statusValidationMsg "invalid"⟩ ∧
    get_track_status (StatusHttp.resp 404 "composing" none "nf")
      = Outcome.err ⟨"Status check failed: nf"⟩ :=
  ⟨((get_track_status_validation_spec 200 "invalid" none "b").1
      (by simp [knownStatuses])).1,
   (get_track_status_validation_spec 404 "composing" none "nf").2 (by decide)⟩

/-- Helper: running the loop on a block of "composing" statuses followed
by a first non-"composing" status appends one sleep per "composing"
iteration, then either raises on "failed" or returns the status. -/
theorem watchLoop_run (interval : Nat) (pre : List TrackStatus)
    (s : TrackStatus) (post : List TrackStatus)
    (hpre : ∀ t ∈ pre, t.status = "composing") (hs : s.status ≠ "composing") :
    ∀ acc : List Nat,
      watchLoop interval (pre ++ s :: post) acc =
        if s.status = "failed" then
          WatchResult.failedTask ⟨"Task failed"⟩
            (acc ++ List.replicate pre.length interval)
        else
          WatchResult.returned s (acc ++ List.replicate pre.length interval) := by
  induction pre with
  | nil =>
      intro acc
      simp [watchLoop, hs]
  | cons hd tl ih =>
      intro acc
      have hhd : hd.status = "composing" := hpre hd (by simp)
      have htl : ∀ t ∈ tl, t.status = "composing" :=
        fun t ht => hpre t (by simp [ht])
      have hstep : watchLoop interval ((hd :: tl) ++ s :: post) acc
          = watchLoop interval (tl ++ s :: post) (acc ++ [interval]) := by
        simp [watchLoop, hhd]
      rw [hstep, ih htl (acc ++ [interval])]
      simp [List.replicate_succ, List.append_assoc]

/-- C1: the poll loop keeps looping, sleeping once per iteration for the
configured interval, exactly while the polled status is "composing";
it raises the "Task failed" domain error as soon as the status is
"failed"; and it returns the first status whose value is anything other
than "composing" or "failed". -/
theorem watch_task_status_spec (interval : Nat) (pre : List TrackStatus)
    (s : TrackStatus) (post : List TrackStatus)
    (hpre : ∀ t ∈ pre, t.status = "composing")
    (hs : s.status ≠ "composing") :
    watch_task_status none interval (pre ++ s :: post) =
      if s.status = "failed" then
        WatchResult.failedTask ⟨"Task failed"⟩ (List.replicate pre.length interval)
      else
        WatchResult.returned s (List.replicate pre.length interval) := by
  have h := watchLoop_run interval pre s post hpre hs []
  simpa [watch_task_status, pyOrNat] using h

/-- Witness for C1 at the spec's concrete sequence: on
[composing, composing, completed] the loop sleeps exactly twice for the
configured interval (10) and returns the completed status without
raising. -/
theorem watch_task_status_spec_witness :
    watch_task_status none 10
        ([⟨"composing", none⟩, ⟨"composing", none⟩] ++
          (⟨"completed", some [("track_url", "u")]⟩ : TrackStatus) :: [])
      = WatchResult.returned ⟨"completed", some [("track_url", "u")]⟩ [10, 10] := by
  rw [watch_task_status_spec 10 [⟨"composing", none⟩, ⟨"composing", none⟩]
    ⟨"completed", some [("track_url", "u")]⟩ [] (by decide) (by decide)]
  decide

/-- C7: downloading to directory dir with filename "song" and format
"mp3": a 200 response with body bytes b writes exactly b to
{dir}/song.mp3 and returns that path; a non-200 response raises the
domain error and writes no file. -/
theorem handle_track_file_download_spec (dir dd : String) (hdir : dir ≠ "")
    (t : Nat) (body : List Nat) (txt : String) :
    handle_track_file (some dir) dd (some "song") "mp3" t
        (DownloadHttp.resp 200 body txt)
      = ⟨Outcome.ok (dir ++ "/" ++ "song.mp3"),
          some (dir ++ "/" ++ "song.mp3", body), true⟩ ∧
    (∀ code, code ≠ 200 →
      handle_track_file (some dir) dd (some "song") "mp3" t
          (DownloadHttp.resp code body txt)
        = ⟨Outcome.err ⟨"Download failed: " ++ txt⟩, none, true⟩) := by
  have hf : resolveFilename (some "song") "mp3" t = "song.mp3" := by
    have hsfx : strEndsWith "song" ".mp3" = false := by decide
    simp [resolveFilename, hsfx]
  have hd : resolveOutputDir (some dir) dd = dir := by
    simp [resolveOutputDir, hdir]
  constructor
  · simp [handle_track_file, hf, hd]
  · intro code hcode
    simp [handle_track_file, hf, hd, hcode]

/-- Witness for C7 at a concrete input: a 200 response with body bytes
"abc" writes exactly those 3 bytes to out/song.mp3 and returns that
path. -/
theorem handle_track_file_download_spec_witness :
    handle_track_file (some "out") "d" (some "song") "mp3" 7
        (DownloadHttp.resp 200 [97, 98, 99] "")
      = ⟨Outcome.ok ("out" ++ "/" ++ "song.mp3"),
          some ("out" ++ "/" ++ "song.mp3", [97, 98, 99]), true⟩ :=
  (handle_track_file_download_spec "out" "d" (by decide) 7 [97, 98, 99] "").1

/-- C8: for a provided (truthy) filename f, the saved name is f when f
ends with the literal string ".{format}" and f.{format} otherwise; the
check is an exact string-suffix comparison, so "song.MP3" with format
"mp3" receives a duplicate suffix; an unset filename is synthesized from
the monotonic loop time before the suffix rule is applied. -/
theorem filename_suffix_spec :
    (∀ f g t, f ≠ "" →
      resolveFilename (some f) g t =
        if strEndsWith f ("." ++ g) then f else f ++ "." ++ g) ∧
    (∀ g t,
      resolveFilename none g t =
        if strEndsWith ("composed_track_" ++ toString t) ("." ++ g) then
          "composed_track_" ++ toString t
        else ("composed_track_" ++ toString t) ++ "." ++ g) ∧
    resolveFilename (some "song.MP3") "mp3" 0 = "song.MP3.mp3" ∧
    (∀ dir dd f g t body txt, dir ≠ "" → f ≠ "" →
      (handle_track_file (some dir) dd (some f) g t
          (DownloadHttp.resp 200 body txt)).result
        = Outcome.ok (dir ++ "/" ++
            (if strEndsWith f ("." ++ g) then f else f ++ "." ++ g))) := by
  refine ⟨?_, ?_, by decide, ?_⟩
  · intro f g t hf
    simp [resolveFilename, hf]
  · intro g t
    simp [resolveFilename]
  · intro dir dd f g t body txt hdir hf
    simp [handle_track_file, resolveFilename, resolveOutputDir, hdir, hf]

/-- Witness for C8 at a concrete input: filename "song.MP3" with format
"mp3" gets the duplicate suffix. -/
theorem filename_suffix_spec_witness :
    resolveFilename (some "song.MP3") "mp3" 5 = "song.MP3.mp3" := by
  rw [filename_suffix_spec.1 "song.MP3" "mp3" 5 (by decide)]
  decide

/-- C10: handle_track_file ensures the destination directory exists before
issuing the GET, so on every path — including a non-200 response and a
connection error, which raise the domain error — the directory has been
created while the target file has not been written. -/
theorem handle_track_file_dir_spec (op? : Option String) (dd : String)
    (f? : Option String) (g : String) (t : Nat) (http : DownloadHttp) :
    (handle_track_file op? dd f? g t http).dirCreated = true ∧
    (∀ code body txt, code ≠ 200 → http = DownloadHttp.resp code body txt →
      (handle_track_file op? dd f? g t http).result
          = Outcome.err ⟨"Download failed: " ++ txt⟩ ∧
      (handle_track_file op? dd f? g t http).fileWritten = none) ∧
    (∀ m, http = DownloadHttp.connectionError m →
      (handle_track_file op? dd f? g t http).result
          = Outcome.err ⟨"Could not download file: " ++ m⟩ ∧
      (handle_track_file op? dd f? g t http).fileWritten = none) := by
  refine ⟨?_, ?_, ?_⟩
  · cases http with
    | resp code body txt =>
        by_cases h : code = 200 <;> simp [handle_track_file, h]
    | connectionError m => simp [handle_track_file]
    | clientError m => simp [handle_track_file]
    | unexpectedError m => simp [handle_track_file]
  · rintro code body txt hcode rfl
    constructor <;> simp [handle_track_file, hcode]
  · rintro m rfl
    constructor <;> simp [handle_track_file]

/-- Witness for C10 at a concrete input: a connection error leaves the
directory created and no file written. -/
theorem handle_track_file_dir_spec_witness :
    (handle_track_file (some "out") "d" (some "song") "mp3" 0
        (DownloadHttp.connectionError "refused")).dirCreated = true ∧
    (handle_track_file (some "out") "d" (some "song") "mp3" 0
        (DownloadHttp.connectionError "refused")).fileWritten = none :=
  ⟨(handle_track_file_dir_spec (some "out") "d" (some "song") "mp3" 0
      (DownloadHttp.connectionError "refused")).1,
   ((handle_track_file_dir_spec (some "out") "d" (some "song") "mp3" 0
      (DownloadHttp.connectionError "refused")).2.2 "refused" rfl).2⟩

/-- C2 counterexample: the claim "for every execution the caller either
receives the local file path or a BeatovenAIError — never a raw transport
or runtime exception" fails: calling generate_music with the provided
(truthy) duration 10 constructs the TrackRequest before the top-level try
block, so the pydantic ValidationError escapes raw. -/
theorem generate_music_raw_validation_escape :
    (generate_music ⟨180, "mp3"⟩ ⟨"test prompt"⟩ (some 10) (some "mp3")
        (fun _ => Outcome.err ⟨"unused"⟩) (fun _ => Outcome.err ⟨"unused"⟩)
        (fun _ => Outcome.err ⟨"unused"⟩)).result
      = Outcome.exc "ValidationError" := by
  decide

/-- C2 amended: once the composition request has been constructed
successfully, generate_music exposes exactly one failure type: the result
is never a raw exception, a domain error from any sub-step (submit, poll,
download) propagates unchanged, and a non-domain exception from a sub-step
is wrapped exactly once into the domain error. -/
theorem generate_music_error_channel (settings : GenSettings)
    (p : TextPrompt) (d? : Option Int) (f? : Option String)
    (composeStep : TrackRequest → Outcome TaskResponse)
    (watchStep : String → Outcome TrackStatus)
    (downloadStep : String → Outcome String) (req : TrackRequest)
    (hreq : TrackRequest.mk? p (some (pyOrInt d? settings.DEFAULT_DURATION))
        (some (pyOrStr f? settings.DEFAULT_FORMAT)) = some req) :
    (∀ m, (generate_music settings p d? f? composeStep watchStep
        downloadStep).result ≠ Outcome.exc m) ∧
    (∀ e, composeStep req = Outcome.err e →
      (generate_music settings p d? f? composeStep watchStep
          downloadStep).result = Outcome.err e) ∧
    (∀ tr e, composeStep req = Outcome.ok tr →
      watchStep tr.task_id = Outcome.err e →
      (generate_music settings p d? f? composeStep watchStep
          downloadStep).result = Outcome.err e) ∧
    (∀ tr st e, composeStep req = Outcome.ok tr →
      watchStep tr.task_id = Outcome.ok st →
      metaTruthyHasTrackUrl st.meta = true →
      downloadStep (metaTrackUrl st.meta) = Outcome.err e →
      (generate_music settings p d? f? composeStep watchStep
          downloadStep).result = Outcome.err e) ∧
    (∀ tr m, composeStep req = Outcome.ok tr →
      watchStep tr.task_id = Outcome.exc m →
      (generate_music settings p d? f? composeStep watchStep
          downloadStep).result
        = Outcome.err ⟨"Music generation failed: " ++ m⟩) := by
  refine ⟨?_, ?_, ?_, ?_, ?_⟩
  · intro m
    simp only [generate_music, hreq]
    cases hc : composeStep req with
    | ok tr =>
        simp only [hc]
        cases hw : watchStep tr.task_id with
        | ok st =>
            simp only [hw]
            by_cases hm : metaTruthyHasTrackUrl st.meta
            · simp only [hm, if_true]
              cases hd : downloadStep (metaTrackUrl st.meta) <;>
                simp [hd, wrapTop]
            · simp [hm, wrapTop]
        | err e => simp [hw, wrapTop]
        | exc m' => simp [hw, wrapTop]
    | err e => simp [hc, wrapTop]
    | exc m' => simp [hc, wrapTop]
  · intro e hc
    simp [generate_music, hreq, hc, wrapTop]
  · intro tr e hc hw
    simp [generate_music, hreq, hc, hw, wrapTop]
  · intro tr st e hc hw hm hdl
    simp [generate_music, hreq, hc, hw, hm, hdl, wrapTop]
  · intro tr m hc hw
    simp [generate_music, hreq, hc, hw, wrapTop]

/-- Witness for the amended C2 at a concrete input: with defaults
180/"mp3" and a poll step that raises the domain error, generate_music
propagates exactly that error. -/
theorem generate_music_error_channel_witness :
    (generate_music ⟨180, "mp3"⟩ ⟨"test prompt"⟩ none none
        (fun _ => Outcome.ok ⟨"t1"⟩)
        (fun _ => Outcome.err ⟨"Task failed"⟩)
        (fun _ => Outcome.ok "out/f.mp3")).result
      = Outcome.err ⟨"Task failed"⟩ :=
  (generate_music_error_channel ⟨180, "mp3"⟩ ⟨"test prompt"⟩ none none
      (fun _ => Outcome.ok ⟨"t1"⟩) (fun _ => Outcome.err ⟨"Task failed"⟩)
      (fun _ => Outcome.ok "out/f.mp3") ⟨⟨"test prompt"⟩, 180, "mp3"⟩
      (by decide)).2.2.1
    ⟨"t1"⟩ ⟨"Task failed"⟩ rfl rfl

/-- C4: when the poll loop returns a terminal status whose meta mapping is
absent or lacks "track_url", generate_music raises the distinct "No track
URL in the completion response" domain error and the download step is
never invoked. -/
theorem generate_music_no_track_url (settings : GenSettings)
    (p : TextPrompt) (d? : Option Int) (f? : Option String)
    (composeStep : TrackRequest → Outcome TaskResponse)
    (watchStep : String → Outcome TrackStatus)
    (downloadStep : String → Outcome String) (req : TrackRequest)
    (tr : TaskResponse) (st : TrackStatus)
    (hreq : TrackRequest.mk? p (some (pyOrInt d? settings.DEFAULT_DURATION))
        (some (pyOrStr f? settings.DEFAULT_FORMAT)) = some req)
    (hc : composeStep req = Outcome.ok tr)
    (hw : watchStep tr.task_id = Outcome.ok st)
    (hm : metaTruthyHasTrackUrl st.meta = false) :
    generate_music settings p d? f? composeStep watchStep downloadStep
      = ⟨Outcome.err ⟨"No track URL in the completion response"⟩, false⟩ ∧
    (⟨"No track URL in the completion response"⟩ : BeatovenAIError)
      ≠ ⟨"Task failed"⟩ := by
  constructor
  · simp [generate_music, hreq, hc, hw, hm, wrapTop]
  · decide

/-- Witness for C4 at a concrete input: a completed status with meta
absent yields the no-track-URL error and no download call. -/
theorem generate_music_no_track_url_witness :
    generate_music ⟨180, "mp3"⟩ ⟨"test prompt"⟩ none none
        (fun _ => Outcome.ok ⟨"t1"⟩)
        (fun _ => Outcome.ok ⟨"completed", none⟩)
        (fun _ => Outcome.ok "out/f.mp3")
      = ⟨Outcome.err ⟨"No track URL in the completion response"⟩, false⟩ :=
  (generate_music_no_track_url ⟨180, "mp3"⟩ ⟨"test prompt"⟩ none none
      (fun _ => Outcome.ok ⟨"t1"⟩)
      (fun _ => Outcome.ok ⟨"completed", none⟩)
      (fun _ => Outcome.ok "out/f.mp3") ⟨⟨"test prompt"⟩, 180, "mp3"⟩
      ⟨"t1"⟩ ⟨"completed", none⟩ (by decide) rfl rfl rfl).1

/-- C9: generate_music applies the configured defaults via a truthiness
check, not a presence check: the provided values duration=0 and format=""
behave exactly like unset values, so with the default settings the request
is silently built with duration 180 and format "mp3" instead of failing
validation; only a provided, truthy duration reaches request
validation. -/
theorem generate_music_truthy_defaults (settings : GenSettings)
    (p : TextPrompt)
    (composeStep : TrackRequest → Outcome TaskResponse)
    (watchStep : String → Outcome TrackStatus)
    (downloadStep : String → Outcome String) :
    pyOrInt (some 0) settings.DEFAULT_DURATION = settings.DEFAULT_DURATION ∧
    pyOrStr (some "") settings.DEFAULT_FORMAT = settings.DEFAULT_FORMAT ∧
    generate_music settings p (some 0) (some "") composeStep watchStep
        downloadStep
      = generate_music settings p none none composeStep watchStep
          downloadStep ∧
    (∀ d : Int, d ≠ 0 → pyOrInt (some d) settings.DEFAULT_DURATION = d) ∧
    TrackRequest.mk? p (some (pyOrInt (some 0) 180))
        (some (pyOrStr (some "") "mp3")) = some ⟨p, 180, "mp3"⟩ := by
  refine ⟨rfl, rfl, ?_, ?_, ?_⟩
  · simp [generate_music, pyOrInt, pyOrStr]
  · intro d hd
    simp [pyOrInt, hd]
  · simp [pyOrInt, pyOrStr, TrackRequest.mk?, allowedFormats]

/-- Witness for C9 at a concrete input: a provided truthy (but invalid)
duration reaches validation unchanged. -/
theorem generate_music_truthy_defaults_witness :
    pyOrInt (some 10) (180 : Int) = 10 ∧
    TrackRequest.mk? ⟨"x"⟩ (some (pyOrInt (some 0) 180))
        (some (pyOrStr (some "") "mp3")) = some ⟨⟨"x"⟩, 180, "mp3"⟩ :=
  ⟨(generate_music_truthy_defaults ⟨180, "mp3"⟩ ⟨"x"⟩
      (fun _ => Outcome.err ⟨"e"⟩) (fun _ => Outcome.err ⟨"e"⟩)
      (fun _ => Outcome.err ⟨"e"⟩)).2.2.2.1 10 (by decide),
   (generate_music_truthy_defaults ⟨180, "mp3"⟩ ⟨"x"⟩
      (fun _ => Outcome.err ⟨"e"⟩) (fun _ => Outcome.err ⟨"e"⟩)
      (fun _ => Outcome.err ⟨"e"⟩)).2.2.2.2⟩

end Beatoven
